import Mathlib

/-!
SceneResource: save and two-phase load.

A shallow embedding of `Source/Urho3D/Scene/SceneResource.cpp`.

The member functions of `SceneResource` are translated to pure functions over
an explicit record of the object's fields.  Everything `SceneResource.cpp` calls
but does not define (the format detector, the three document classes, the
archive classes, the scene's own serialisation, the prefab resource, the
virtual file system) is a field of `Collaborators`; the functions below are
parametric in it.

* a `SharedPtr<T>` member is an `Option T` (`none` is the null pointer);
* a byte stream (`Serializer`, `Deserializer`) is the list of its bytes;
* an `ArchiveException` raised by a collaborator is a value (`Except.error`,
  `Outcome.thrown`), and the `try`/`catch` blocks are the matches on it;
* dereferencing a null `SharedPtr` is the separate result `nullPointer`.
-/

namespace Urho3D

/-- The bytes of a stream. -/
abbrev Bytes := List Nat

/-- The enumeration `InternalResourceFormat`. -/
inductive InternalResourceFormat where
  | Json
  | Xml
  | Binary
  | Unknown
  deriving DecidableEq, Repr

/-- The constants of `PrefabSaveFlag` that `SceneResource.cpp` passes. -/
inductive PrefabSaveFlag where
  | None
  | EnumsAsStrings
  | CompactAttributeNames
  deriving DecidableEq, Repr

/-- The constant of `PrefabLoadFlag` that `SceneResource.cpp` passes. -/
inductive PrefabLoadFlag where
  | None
  deriving DecidableEq, Repr

/-- Result of a collaborator call that works in place on a value of type `α`
and may raise `ArchiveException`: the value it leaves behind, and the message
when it raised. -/
inductive Outcome (α : Type) where
  | done (a : α)
  | thrown (a : α) (what : String)
  deriving DecidableEq, Repr

/-- The code that `SceneResource.cpp` calls and does not define.
`Scene`, `JSONFile`, `XMLFile` and `Prefab` are the collaborators' own types. -/
structure Collaborators (Scene JSONFile XMLFile Prefab : Type) where
  /-- The constant `DefaultBinaryMagic`. -/
  DefaultBinaryMagic : Bytes
  /-- The constant `BinaryMagicSize`. -/
  BinaryMagicSize : Nat
  /-- The scene made by `MakeShared<Scene>(context)` in the constructor. -/
  MakeScene : Scene
  /-- The call `PeekResourceFormat(source, magic)`. -/
  PeekResourceFormat : Bytes → Bytes → InternalResourceFormat
  /-- The call `JSONFile::Load(source)` on a new `JSONFile`: the file
  afterwards and the returned flag. -/
  jsonLoad : Bytes → JSONFile × Bool
  /-- The call `XMLFile::Load(source)` on a new `XMLFile`. -/
  xmlLoad : Bytes → XMLFile × Bool
  /-- The call `BinaryFile::Load(source)` on a new `BinaryFile`: its data
  (`GetData()`) afterwards and the returned flag. -/
  binaryLoad : Bytes → Bytes × Bool
  /-- A `JSONOutputArchive` over the root of a new `JSONFile`: open the
  unordered block of the given name and run `Scene::SerializeInBlock`. -/
  jsonOutput : String → Scene → Bool → PrefabSaveFlag → PrefabLoadFlag → Except String JSONFile
  /-- The call `JSONFile::Save(dest)`: the returned flag and `dest` afterwards. -/
  jsonSave : JSONFile → Bytes → Bool × Bytes
  /-- An `XMLOutputArchive` over `GetOrCreateRoot(rootName)` of a new `XMLFile`
  (first argument), then as `jsonOutput` (second argument: the block name). -/
  xmlOutput : String → String → Scene → Bool → PrefabSaveFlag → PrefabLoadFlag → Except String XMLFile
  /-- The call `XMLFile::Save(dest)`. -/
  xmlSave : XMLFile → Bytes → Bool × Bytes
  /-- A `BinaryOutputArchive` over `dest`: the bytes it appends to `dest`. -/
  binaryOutput : String → Scene → Bool → PrefabSaveFlag → PrefabLoadFlag → Outcome Bytes
  /-- A `JSONInputArchive` over the root of the file: open the unordered block
  of the given name and run `Scene::SerializeInBlock` on the scene. -/
  jsonInput : JSONFile → String → Scene → Bool → PrefabSaveFlag → PrefabLoadFlag → Outcome Scene
  /-- The name of the root element, `GetRoot().GetName()`. -/
  xmlRootName : XMLFile → String
  /-- An `XMLInputArchive` over the root element of the file. -/
  xmlInput : XMLFile → String → Scene → Bool → PrefabSaveFlag → PrefabLoadFlag → Outcome Scene
  /-- The call `Scene::LoadXML(root)`: the scene afterwards and the returned flag. -/
  LoadXML : Scene → XMLFile → Scene × Bool
  /-- A `BinaryInputArchive` over a buffer, given the bytes from the read
  position on. -/
  binaryInput : Bytes → String → Scene → Bool → PrefabSaveFlag → PrefabLoadFlag → Outcome Scene
  /-- The call `Scene::GeneratePrefab` into the scene prefab of a new
  `PrefabResource`. -/
  GeneratePrefab : Scene → Except String Prefab
  /-- The call `PrefabResource::NormalizeIds()`. -/
  NormalizeIds : Prefab → Except String Prefab
  /-- The call `PrefabResource::Save(dest, format)`: the returned flag and
  `dest` afterwards. -/
  prefabSave : Prefab → Bytes → InternalResourceFormat → Except String (Bool × Bytes)
  /-- The call `VirtualFileSystem::OpenFile(fileName, FILE_WRITE)`: the opened
  stream, or `none` for a null file. -/
  OpenFile : String → Option Bytes

/-- The fields of a `SceneResource`. -/
structure SceneResource (Scene JSONFile XMLFile : Type) where
  scene_ : Scene
  loadFormat_ : Option InternalResourceFormat
  saveFormat_ : Option InternalResourceFormat
  isPrefab_ : Bool
  loadBinaryFile_ : Option Bytes
  loadJsonFile_ : Option JSONFile
  loadXmlFile_ : Option XMLFile
  deriving DecidableEq

/-- The signals a call emits, in order. -/
inductive Notification where
  | OnReloadBegin
  | OnReloadEnd (applied : Bool)
  deriving DecidableEq, Repr

/-- Result of `Save` and `SaveFile`: the returned flag with the destination
stream afterwards, or an `ArchiveException` that leaves the function. -/
inductive SaveResult where
  | returned (ok : Bool) (dest : Bytes)
  | escaped (what : String)
  deriving DecidableEq, Repr

/-- Result of the `switch` of `EndLoad`. -/
inductive Applied (Scene : Type) where
  | completed (scene : Scene)
  | archiveException (scene : Scene) (what : String)
  | nullPointer
  deriving DecidableEq

/-- Result of `EndLoad`: the returned flag, the object afterwards and the
signals emitted; or a null pointer dereference. -/
inductive EndLoadResult (Scene JSONFile XMLFile : Type) where
  | returned (ok : Bool) (self : SceneResource Scene JSONFile XMLFile)
      (emitted : List Notification)
  | nullPointer
  deriving DecidableEq

section Code

variable {Scene JSONFile XMLFile Prefab : Type}

/-- The constructor `SceneResource(Context*)`.  It initialises `scene_`; the
optionals start empty and the shared pointers null.  The initial value of
`isPrefab_` is given by the class declaration, which is an argument here. -/
def SceneResource.new (env : Collaborators Scene JSONFile XMLFile Prefab)
    (isPrefab : Bool) : SceneResource Scene JSONFile XMLFile :=
  { scene_ := env.MakeScene
    loadFormat_ := none
    saveFormat_ := none
    isPrefab_ := isPrefab
    loadBinaryFile_ := none
    loadJsonFile_ := none
    loadXmlFile_ := none }

/-- `SceneResource::GetXmlRootName`. -/
def GetXmlRootName : String := "resource"

/-- `SceneResource::SetSaveFormatHint`. -/
def SetSaveFormatHint (self : SceneResource Scene JSONFile XMLFile)
    (format : InternalResourceFormat) : SceneResource Scene JSONFile XMLFile :=
  { self with
    saveFormat_ := if format ≠ InternalResourceFormat.Unknown then some format else none }

/-- `SceneResource::Save(Serializer&, InternalResourceFormat, bool) const`. -/
def Save (env : Collaborators Scene JSONFile XMLFile Prefab)
    (self : SceneResource Scene JSONFile XMLFile) (dest : Bytes)
    (format : InternalResourceFormat) (asPrefab : Bool) : SaveResult :=
  if asPrefab then
    match env.GeneratePrefab self.scene_ with
    | .error e => .escaped e
    | .ok prefab =>
      match env.NormalizeIds prefab with
      | .error e => .escaped e
      | .ok prefab =>
        match env.prefabSave prefab dest format with
        | .error e => .escaped e
        | .ok (ok, dest) => .returned ok dest
  else
    match format with
    | .Json =>
      match env.jsonOutput GetXmlRootName self.scene_ false
          PrefabSaveFlag.EnumsAsStrings PrefabLoadFlag.None with
      | .error _ => .returned false dest
      | .ok jsonFile => .returned (env.jsonSave jsonFile dest).1 (env.jsonSave jsonFile dest).2
    | .Xml =>
      match env.xmlOutput GetXmlRootName GetXmlRootName self.scene_ false
          PrefabSaveFlag.EnumsAsStrings PrefabLoadFlag.None with
      | .error _ => .returned false dest
      | .ok xmlFile => .returned (env.xmlSave xmlFile dest).1 (env.xmlSave xmlFile dest).2
    | .Binary =>
      let dest := dest ++ env.DefaultBinaryMagic.take env.BinaryMagicSize
      match env.binaryOutput GetXmlRootName self.scene_ false
          PrefabSaveFlag.CompactAttributeNames PrefabLoadFlag.None with
      | .thrown written _ => .returned false (dest ++ written)
      | .done written => .returned true (dest ++ written)
    | .Unknown => .returned false dest

/-- `SceneResource::SaveFile(const FileIdentifier&, InternalResourceFormat, bool) const`. -/
def SaveFile (env : Collaborators Scene JSONFile XMLFile Prefab)
    (self : SceneResource Scene JSONFile XMLFile) (fileName : String)
    (format : InternalResourceFormat) (asPrefab : Bool) : SaveResult :=
  match env.OpenFile fileName with
  | none => .returned false []
  | some file => Save env self file format asPrefab

/-- `SceneResource::BeginLoad`: the returned flag and the object afterwards. -/
def BeginLoad (env : Collaborators Scene JSONFile XMLFile Prefab)
    (self : SceneResource Scene JSONFile XMLFile) (source : Bytes) :
    Bool × SceneResource Scene JSONFile XMLFile :=
  let self := { self with loadBinaryFile_ := none, loadJsonFile_ := none, loadXmlFile_ := none }
  let format := env.PeekResourceFormat source env.DefaultBinaryMagic
  match format with
  | .Json =>
    let self := { self with loadJsonFile_ := some (env.jsonLoad source).1 }
    if !(env.jsonLoad source).2 then (false, self)
    else (true, { self with loadFormat_ := some format })
  | .Xml =>
    let self := { self with loadXmlFile_ := some (env.xmlLoad source).1 }
    if !(env.xmlLoad source).2 then (false, self)
    else (true, { self with loadFormat_ := some format })
  | .Binary =>
    let self := { self with loadBinaryFile_ := some (env.binaryLoad source).1 }
    (true, { self with loadFormat_ := some format })
  | .Unknown =>
    (false, { self with loadFormat_ := some InternalResourceFormat.Unknown })

/-- Lift the result of an input archive to the result of the `switch`. -/
def Applied.ofOutcome : Outcome Scene → Applied Scene
  | .done scene => .completed scene
  | .thrown scene what => .archiveException scene what

/-- The `switch (*loadFormat_)` of `SceneResource::EndLoad`. -/
def applyStep (env : Collaborators Scene JSONFile XMLFile Prefab)
    (self : SceneResource Scene JSONFile XMLFile) (format : InternalResourceFormat) :
    Applied Scene :=
  match format with
  | .Json =>
    match self.loadJsonFile_ with
    | none => .nullPointer
    | some jsonFile =>
      Applied.ofOutcome (env.jsonInput jsonFile GetXmlRootName self.scene_ false
        PrefabSaveFlag.None PrefabLoadFlag.None)
  | .Xml =>
    match self.loadXmlFile_ with
    | none => .nullPointer
    | some xmlFile =>
      if env.xmlRootName xmlFile = GetXmlRootName then
        Applied.ofOutcome (env.xmlInput xmlFile GetXmlRootName self.scene_ false
          PrefabSaveFlag.None PrefabLoadFlag.None)
      else
        if !(env.LoadXML self.scene_ xmlFile).2 then
          .archiveException (env.LoadXML self.scene_ xmlFile).1
            "Cannot load Scene from legacy XML format"
        else .completed (env.LoadXML self.scene_ xmlFile).1
  | .Binary =>
    match self.loadBinaryFile_ with
    | none => .nullPointer
    | some data =>
      Applied.ofOutcome (env.binaryInput (data.drop env.BinaryMagicSize) GetXmlRootName
        self.scene_ false PrefabSaveFlag.None PrefabLoadFlag.None)
  | .Unknown =>
    .archiveException self.scene_ "Cannot load Scene from the file of unknown format"

/-- `SceneResource::EndLoad`.  `onReloadBegin` stands for the subscribers of
the signal `OnReloadBegin`: given the resource they are handed, the value they
leave in `cancelReload`. -/
def EndLoad (env : Collaborators Scene JSONFile XMLFile Prefab)
    (onReloadBegin : SceneResource Scene JSONFile XMLFile → Bool)
    (self : SceneResource Scene JSONFile XMLFile) : EndLoadResult Scene JSONFile XMLFile :=
  match self.loadFormat_ with
  | none => .returned false self []
  | some format =>
    if format = InternalResourceFormat.Unknown then .returned false self []
    else
      let cancelReload := onReloadBegin self
      if !cancelReload then
        match applyStep env self format with
        | .nullPointer => .nullPointer
        | .archiveException scene _ =>
          .returned false { self with scene_ := scene } [Notification.OnReloadBegin]
        | .completed scene =>
          .returned true
            { self with
              scene_ := scene, loadJsonFile_ := none, loadBinaryFile_ := none,
              loadXmlFile_ := none }
            [Notification.OnReloadBegin, Notification.OnReloadEnd (!cancelReload)]
      else
        .returned true
          { self with loadJsonFile_ := none, loadBinaryFile_ := none, loadXmlFile_ := none }
          [Notification.OnReloadBegin, Notification.OnReloadEnd (!cancelReload)]

/-- The format that `Save(Serializer&)` and `SaveFile(const FileIdentifier&)`
compute in their first line. -/
def resolvedFormat (self : SceneResource Scene JSONFile XMLFile) : InternalResourceFormat :=
  self.saveFormat_.getD (self.loadFormat_.getD InternalResourceFormat.Xml)

/-- `SceneResource::Save(Serializer&) const`. -/
def SaveDefault (env : Collaborators Scene JSONFile XMLFile Prefab)
    (self : SceneResource Scene JSONFile XMLFile) (dest : Bytes) : SaveResult :=
  let format := self.saveFormat_.getD (self.loadFormat_.getD InternalResourceFormat.Xml)
  Save env self dest format self.isPrefab_

/-- `SceneResource::SaveFile(const FileIdentifier&) const`. -/
def SaveFileDefault (env : Collaborators Scene JSONFile XMLFile Prefab)
    (self : SceneResource Scene JSONFile XMLFile) (fileName : String) : SaveResult :=
  let format := self.saveFormat_.getD (self.loadFormat_.getD InternalResourceFormat.Xml)
  SaveFile env self fileName format self.isPrefab_

/-- A call of a public member on a resource. -/
inductive Call (Scene JSONFile XMLFile : Type) where
  | BeginLoad (source : Bytes)
  | EndLoad (onReloadBegin : SceneResource Scene JSONFile XMLFile → Bool)
  | Save (dest : Bytes) (format : InternalResourceFormat) (asPrefab : Bool)
  | SaveDefault (dest : Bytes)
  | SetSaveFormatHint (format : InternalResourceFormat)

/-- The resource after one call; `none` when the call dereferences a null
pointer.  The two `Save` overloads are `const` members and leave the resource
as it is, whatever they return. -/
def step (env : Collaborators Scene JSONFile XMLFile Prefab)
    (self : SceneResource Scene JSONFile XMLFile) :
    Call Scene JSONFile XMLFile → Option (SceneResource Scene JSONFile XMLFile)
  | .BeginLoad source => some (BeginLoad env self source).2
  | .EndLoad onReloadBegin =>
    match EndLoad env onReloadBegin self with
    | .returned _ after _ => some after
    | .nullPointer => none
  | .Save _ _ _ => some self
  | .SaveDefault _ => some self
  | .SetSaveFormatHint format => some (SetSaveFormatHint self format)

/-- The resource after a sequence of calls, first call first. -/
def run (env : Collaborators Scene JSONFile XMLFile Prefab)
    (self : SceneResource Scene JSONFile XMLFile) :
    List (Call Scene JSONFile XMLFile) → Option (SceneResource Scene JSONFile XMLFile)
  | [] => some self
  | call :: calls => (step env self call).bind fun after => run env after calls

/-- Number of occupied pending document slots. -/
def pendingCount (self : SceneResource Scene JSONFile XMLFile) : Nat :=
  (if self.loadBinaryFile_.isSome then 1 else 0) + (if self.loadJsonFile_.isSome then 1 else 0)
    + (if self.loadXmlFile_.isSome then 1 else 0)

/-- The resource with its three pending document pointers reset. -/
def released (self : SceneResource Scene JSONFile XMLFile) :
    SceneResource Scene JSONFile XMLFile :=
  { self with loadJsonFile_ := none, loadBinaryFile_ := none, loadXmlFile_ := none }

/-- What the round trip through format `format` takes for granted about the
collaborators.  The archive of the format, writing a scene under the block
`resource` with any flags, succeeds; the document it wrote saves, and the saved
stream parses again (for XML: with the root element it was created with); and
the input archive, reading the parsed document under the block `resource` with
any flags into any scene, completes with the scene that was written.  For
Binary, where the archive writes to the stream itself, `BinaryFile::Load` holds
the bytes of the stream it read. -/
def AdapterRoundTrip (env : Collaborators Scene JSONFile XMLFile Prefab) :
    InternalResourceFormat → Prop
  | .Json => ∀ (scene : Scene) (sf : PrefabSaveFlag) (lf : PrefabLoadFlag),
      ∃ jsonFile, env.jsonOutput GetXmlRootName scene false sf lf = .ok jsonFile ∧
        (env.jsonSave jsonFile []).1 = true ∧
        (env.jsonLoad (env.jsonSave jsonFile []).2).2 = true ∧
        ∀ (old : Scene) (sf2 : PrefabSaveFlag) (lf2 : PrefabLoadFlag),
          env.jsonInput (env.jsonLoad (env.jsonSave jsonFile []).2).1 GetXmlRootName old false
            sf2 lf2 = .done scene
  | .Xml => ∀ (scene : Scene) (sf : PrefabSaveFlag) (lf : PrefabLoadFlag),
      ∃ xmlFile, env.xmlOutput GetXmlRootName GetXmlRootName scene false sf lf = .ok xmlFile ∧
        (env.xmlSave xmlFile []).1 = true ∧
        (env.xmlLoad (env.xmlSave xmlFile []).2).2 = true ∧
        env.xmlRootName (env.xmlLoad (env.xmlSave xmlFile []).2).1 = GetXmlRootName ∧
        ∀ (old : Scene) (sf2 : PrefabSaveFlag) (lf2 : PrefabLoadFlag),
          env.xmlInput (env.xmlLoad (env.xmlSave xmlFile []).2).1 GetXmlRootName old false
            sf2 lf2 = .done scene
  | .Binary => (∀ source, (env.binaryLoad source).1 = source) ∧
      ∀ (scene : Scene) (sf : PrefabSaveFlag) (lf : PrefabLoadFlag),
        ∃ written, env.binaryOutput GetXmlRootName scene false sf lf = .done written ∧
          ∀ (old : Scene) (sf2 : PrefabSaveFlag) (lf2 : PrefabLoadFlag),
            env.binaryInput written GetXmlRootName old false sf2 lf2 = .done scene
  | .Unknown => False

/-- The format detector classifies every stream that a successful non-prefab
`Save` with format `format` writes to an empty destination as `format`. -/
def DetectsSaved (env : Collaborators Scene JSONFile XMLFile Prefab)
    (format : InternalResourceFormat) : Prop :=
  ∀ (self : SceneResource Scene JSONFile XMLFile) (written : Bytes),
    Save env self [] format false = .returned true written →
    env.PeekResourceFormat written env.DefaultBinaryMagic = format

end Code

/-! ## A concrete set of collaborators

A small instance of `Collaborators`, on which the definitions above evaluate.
A scene is a number; a JSON or XML document is the name of its root with the
number it stores.  Streams: `{`, the number, the name for JSON; `<`, the
number, the name for XML; the four magic bytes, the number, the name for
Binary. -/

namespace Sample

/-- Character codes of a name. -/
def encodeName (name : String) : Bytes := name.toList.map Char.toNat

/-- The name with the given character codes. -/
def decodeName (codes : Bytes) : String := String.mk (codes.map Char.ofNat)

/-- The sample format detector: the magic first, then the opening character. -/
def peek (source magic : Bytes) : InternalResourceFormat :=
  if source.take magic.length = magic then .Binary
  else
    match source with
    | 123 :: _ => .Json
    | 60 :: _ => .Xml
    | _ => .Unknown

/-- The sample text parser: the opening character, the number, the name. -/
def parseText (opening : Nat) (source : Bytes) : (String × Nat) × Bool :=
  match source with
  | c :: value :: name => if c = opening then ((decodeName name, value), true) else (("", 0), false)
  | _ => (("", 0), false)

/-- The sample input archive over a text document. -/
def readText (doc : String × Nat) (block : String) (scene : Nat) : Outcome Nat :=
  if doc.1 = block then .done doc.2 else .thrown scene "block not found"

/-- The sample binary input archive. -/
def readBinary (buffer : Bytes) (block : String) (scene : Nat) : Outcome Nat :=
  match buffer with
  | value :: name => if decodeName name = block then .done value else .thrown scene "block not found"
  | [] => .thrown scene "unexpected end of buffer"

/-- The sample collaborators.  `BinaryFile::Load` reports failure on a stream
of at most four bytes; the legacy loader accepts the root element `scene`. -/
def env : Collaborators Nat (String × Nat) (String × Nat) Nat where
  DefaultBinaryMagic := [0, 66, 73, 78]
  BinaryMagicSize := 4
  MakeScene := 0
  PeekResourceFormat := peek
  jsonLoad := parseText 123
  xmlLoad := parseText 60
  binaryLoad := fun source => (source, decide (4 < source.length))
  jsonOutput := fun block scene _ _ _ => .ok (block, scene)
  jsonSave := fun doc dest => (true, dest ++ 123 :: doc.2 :: encodeName doc.1)
  xmlOutput := fun root _ scene _ _ _ => .ok (root, scene)
  xmlSave := fun doc dest => (true, dest ++ 60 :: doc.2 :: encodeName doc.1)
  binaryOutput := fun block scene _ _ _ => .done (scene :: encodeName block)
  jsonInput := fun doc block scene _ _ _ => readText doc block scene
  xmlRootName := fun doc => doc.1
  xmlInput := fun doc block scene _ _ _ => readText doc block scene
  LoadXML := fun scene doc => if doc.1 = "scene" then (doc.2, true) else (scene, false)
  binaryInput := fun buffer block scene _ _ _ => readBinary buffer block scene
  GeneratePrefab := fun scene => .ok scene
  NormalizeIds := fun prefab => .ok prefab
  prefabSave := fun prefab dest _ => .ok (true, dest ++ [80, prefab])
  OpenFile := fun _ => some []

/-- Subscribers of `OnReloadBegin` that leave `cancelReload` unset. -/
def proceed : SceneResource Nat (String × Nat) (String × Nat) → Bool := fun _ => false

/-- Subscribers of `OnReloadBegin` that set `cancelReload`. -/
def cancel : SceneResource Nat (String × Nat) (String × Nat) → Bool := fun _ => true

/-- A resource on which a Binary load has succeeded and has been applied. -/
def afterBinary : SceneResource Nat (String × Nat) (String × Nat) :=
  { scene_ := 7
    loadFormat_ := some .Binary
    saveFormat_ := none
    isPrefab_ := false
    loadBinaryFile_ := none
    loadJsonFile_ := none
    loadXmlFile_ := none }

/-- The sample collaborators with a `PrefabResource::Save` that raises
`ArchiveException`. -/
def prefabSaveRaises : Collaborators Nat (String × Nat) (String × Nat) Nat :=
  { env with prefabSave := fun _ _ _ => .error "cannot save prefab" }

end Sample

/-! ## Default save format -/

section Theorems

variable {Scene JSONFile XMLFile Prefab : Type}

/-- `BeginLoad` touches neither `saveFormat_`, `isPrefab_` nor `scene_`. -/
theorem BeginLoad_frame (env : Collaborators Scene JSONFile XMLFile Prefab)
    (self : SceneResource Scene JSONFile XMLFile) (source : Bytes) :
    (BeginLoad env self source).2.saveFormat_ = self.saveFormat_ ∧
    (BeginLoad env self source).2.isPrefab_ = self.isPrefab_ ∧
    (BeginLoad env self source).2.scene_ = self.scene_ := by
  unfold BeginLoad
  cases env.PeekResourceFormat source env.DefaultBinaryMagic <;> simp <;> split <;> simp

/-- What `BeginLoad` returns, branch by branch. -/
theorem BeginLoad_accepted (env : Collaborators Scene JSONFile XMLFile Prefab)
    (self : SceneResource Scene JSONFile XMLFile) (source : Bytes) :
    (BeginLoad env self source).1 = true ↔
      (env.PeekResourceFormat source env.DefaultBinaryMagic = .Json ∧
        (env.jsonLoad source).2 = true) ∨
      (env.PeekResourceFormat source env.DefaultBinaryMagic = .Xml ∧
        (env.xmlLoad source).2 = true) ∨
      env.PeekResourceFormat source env.DefaultBinaryMagic = .Binary := by
  unfold BeginLoad
  cases h : env.PeekResourceFormat source env.DefaultBinaryMagic <;> simp
  · cases (env.jsonLoad source).2 <;> simp
  · cases (env.xmlLoad source).2 <;> simp

/-- After an accepted `BeginLoad`, `loadFormat_` holds the detected format,
which is not `Unknown`. -/
theorem BeginLoad_accepted_format (env : Collaborators Scene JSONFile XMLFile Prefab)
    (self : SceneResource Scene JSONFile XMLFile) (source : Bytes)
    (h : (BeginLoad env self source).1 = true) :
    (BeginLoad env self source).2.loadFormat_ =
        some (env.PeekResourceFormat source env.DefaultBinaryMagic) ∧
      env.PeekResourceFormat source env.DefaultBinaryMagic ≠ .Unknown := by
  unfold BeginLoad at h ⊢
  cases hf : env.PeekResourceFormat source env.DefaultBinaryMagic <;> simp [hf] at h ⊢
  · cases hj : (env.jsonLoad source).2 <;> simp [hj] at h ⊢
  · cases hx : (env.xmlLoad source).2 <;> simp [hx] at h ⊢

/-- `EndLoad` touches neither `saveFormat_`, `loadFormat_` nor `isPrefab_`. -/
theorem EndLoad_frame (env : Collaborators Scene JSONFile XMLFile Prefab)
    (onReloadBegin : SceneResource Scene JSONFile XMLFile → Bool)
    (self after : SceneResource Scene JSONFile XMLFile) (ok : Bool)
    (emitted : List Notification)
    (h : EndLoad env onReloadBegin self = .returned ok after emitted) :
    after.saveFormat_ = self.saveFormat_ ∧ after.loadFormat_ = self.loadFormat_ ∧
      after.isPrefab_ = self.isPrefab_ := by
  unfold EndLoad at h
  cases hlf : self.loadFormat_ with
  | none => simp [hlf] at h; obtain ⟨-, rfl, -⟩ := h; simp [hlf]
  | some format =>
    by_cases hu : format = InternalResourceFormat.Unknown
    · simp [hlf, hu] at h; obtain ⟨-, rfl, -⟩ := h; simp [hlf, hu]
    · cases hc : onReloadBegin self
      · cases ha : applyStep env self format <;> simp [hlf, hu, hc, ha] at h
        · obtain ⟨-, rfl, -⟩ := h; simp [hlf]
        · obtain ⟨-, rfl, -⟩ := h; simp [hlf]
      · simp [hlf, hu, hc] at h; obtain ⟨-, rfl, -⟩ := h; simp [hlf]

/-- C1.  Format precedence of `Save(Serializer&)` and `SaveFile(const
FileIdentifier&)`.  In a resource without a save format hint on which
`BeginLoad` has just returned true with detected format `F`: `F` is a known
format and both functions call the three-argument overload with `F` and
`isPrefab_`, also after any `EndLoad` that returns; after
`SetSaveFormatHint(G)`, `G` known, they call it with `G`; after
`SetSaveFormatHint(Unknown)` the hint is empty and they call it with `F` again.
`BeginLoad` and `EndLoad` leave the hint as it is (`Save` is a `const` member:
its result carries no object). -/
theorem Save_format_precedence (env : Collaborators Scene JSONFile XMLFile Prefab)
    (self : SceneResource Scene JSONFile XMLFile) (source dest : Bytes) (fileName : String)
    (G : InternalResourceFormat) (hG : G ≠ .Unknown) (hint : self.saveFormat_ = none)
    (hload : (BeginLoad env self source).1 = true) :
    env.PeekResourceFormat source env.DefaultBinaryMagic ≠ .Unknown ∧
    SaveDefault env (BeginLoad env self source).2 dest =
      Save env (BeginLoad env self source).2 dest
        (env.PeekResourceFormat source env.DefaultBinaryMagic) self.isPrefab_ ∧
    SaveFileDefault env (BeginLoad env self source).2 fileName =
      SaveFile env (BeginLoad env self source).2 fileName
        (env.PeekResourceFormat source env.DefaultBinaryMagic) self.isPrefab_ ∧
    (∀ onReloadBegin ok after emitted,
      EndLoad env onReloadBegin (BeginLoad env self source).2 = .returned ok after emitted →
      SaveDefault env after dest =
        Save env after dest (env.PeekResourceFormat source env.DefaultBinaryMagic)
          self.isPrefab_) ∧
    SaveDefault env (SetSaveFormatHint (BeginLoad env self source).2 G) dest =
      Save env (SetSaveFormatHint (BeginLoad env self source).2 G) dest G self.isPrefab_ ∧
    SaveFileDefault env (SetSaveFormatHint (BeginLoad env self source).2 G) fileName =
      SaveFile env (SetSaveFormatHint (BeginLoad env self source).2 G) fileName G
        self.isPrefab_ ∧
    (SetSaveFormatHint (SetSaveFormatHint (BeginLoad env self source).2 G)
      .Unknown).saveFormat_ = none ∧
    SaveDefault env
        (SetSaveFormatHint (SetSaveFormatHint (BeginLoad env self source).2 G) .Unknown) dest =
      Save env
        (SetSaveFormatHint (SetSaveFormatHint (BeginLoad env self source).2 G) .Unknown) dest
        (env.PeekResourceFormat source env.DefaultBinaryMagic) self.isPrefab_ ∧
    (∀ (other : SceneResource Scene JSONFile XMLFile) (stream : Bytes),
      (BeginLoad env other stream).2.saveFormat_ = other.saveFormat_) ∧
    (∀ onReloadBegin (other after : SceneResource Scene JSONFile XMLFile) ok emitted,
      EndLoad env onReloadBegin other = .returned ok after emitted →
      after.saveFormat_ = other.saveFormat_) := by
  obtain ⟨hfmt, hknown⟩ := BeginLoad_accepted_format env self source hload
  obtain ⟨hsave, hprefab, -⟩ := BeginLoad_frame env self source
  rw [hint] at hsave
  refine ⟨hknown, ?_, ?_, ?_, ?_, ?_, ?_, ?_, ?_, ?_⟩
  · simp [SaveDefault, hfmt, hsave, hprefab]
  · simp [SaveFileDefault, hfmt, hsave, hprefab]
  · intro onReloadBegin ok after emitted h
    obtain ⟨h1, h2, h3⟩ := EndLoad_frame env onReloadBegin _ after ok emitted h
    simp [SaveDefault, h1, h2, h3, hfmt, hsave, hprefab]
  · simp [SaveDefault, SetSaveFormatHint, hG, hprefab]
  · simp [SaveFileDefault, SetSaveFormatHint, hG, hprefab]
  · simp [SetSaveFormatHint]
  · simp [SaveDefault, SetSaveFormatHint, hfmt, hprefab]
  · intro other stream
    exact (BeginLoad_frame env other stream).1
  · intro onReloadBegin other after ok emitted h
    exact (EndLoad_frame env onReloadBegin other after ok emitted h).1

/-- C1, at the sample collaborators: a resource without hint, the Binary
stream `\0BIN` followed by `7`, and the hint `Json`. -/
theorem Save_format_precedence_witness :
    Sample.env.PeekResourceFormat [0, 66, 73, 78, 7] Sample.env.DefaultBinaryMagic
      = InternalResourceFormat.Binary ∧
    SaveDefault Sample.env
        (SetSaveFormatHint (BeginLoad Sample.env (SceneResource.new Sample.env false)
          [0, 66, 73, 78, 7]).2 InternalResourceFormat.Json) [] =
      Save Sample.env
        (SetSaveFormatHint (BeginLoad Sample.env (SceneResource.new Sample.env false)
          [0, 66, 73, 78, 7]).2 InternalResourceFormat.Json) []
        InternalResourceFormat.Json false :=
  ⟨by decide,
    (Save_format_precedence Sample.env (SceneResource.new Sample.env false)
      [0, 66, 73, 78, 7] [] "scene.json" InternalResourceFormat.Json (by decide) rfl
      (by decide)).2.2.2.2.1⟩

/-- C2, as the claim states it, fails: in a new resource the resolved format is
`Xml`, not `Json`, and at the sample collaborators the default `Save` writes
something else than `Save(dest, Json, isPrefab_)`. -/
theorem default_format_is_not_Json :
    resolvedFormat (SceneResource.new Sample.env false) ≠ InternalResourceFormat.Json ∧
    SaveDefault Sample.env (SceneResource.new Sample.env false) [] ≠
      Save Sample.env (SceneResource.new Sample.env false) [] InternalResourceFormat.Json
        false := by
  decide

/-- C2, amended.  In a new resource (no hint, `BeginLoad` never called),
`Save(Serializer&)` and `SaveFile(const FileIdentifier&)` resolve the format to
`Xml` and call the three-argument overload with `Xml` and `isPrefab_`. -/
theorem default_format_is_Xml (env : Collaborators Scene JSONFile XMLFile Prefab)
    (isPrefab : Bool) (dest : Bytes) (fileName : String) :
    resolvedFormat (SceneResource.new env isPrefab) = InternalResourceFormat.Xml ∧
    SaveDefault env (SceneResource.new env isPrefab) dest =
      Save env (SceneResource.new env isPrefab) dest InternalResourceFormat.Xml isPrefab ∧
    SaveFileDefault env (SceneResource.new env isPrefab) fileName =
      SaveFile env (SceneResource.new env isPrefab) fileName InternalResourceFormat.Xml
        isPrefab :=
  ⟨rfl, rfl, rfl⟩

/-! ## BeginLoad -/

/-- C3, at the failing input.  The stream `\0BIN` is detected as Binary and
`BinaryFile::Load` reports failure on it, yet `BeginLoad` returns true and
records the format Binary; on the stream `{`, detected as Json, where
`JSONFile::Load` reports failure, `BeginLoad` returns false. -/
theorem BeginLoad_ignores_binary_parse_failure :
    Sample.env.PeekResourceFormat [0, 66, 73, 78] Sample.env.DefaultBinaryMagic
      = InternalResourceFormat.Binary ∧
    (Sample.env.binaryLoad [0, 66, 73, 78]).2 = false ∧
    (BeginLoad Sample.env (SceneResource.new Sample.env false) [0, 66, 73, 78]).1 = true ∧
    (BeginLoad Sample.env (SceneResource.new Sample.env false) [0, 66, 73, 78]).2.loadFormat_
      = some InternalResourceFormat.Binary ∧
    Sample.env.PeekResourceFormat [123] Sample.env.DefaultBinaryMagic
      = InternalResourceFormat.Json ∧
    (Sample.env.jsonLoad [123]).2 = false ∧
    (BeginLoad Sample.env (SceneResource.new Sample.env false) [123]).1 = false := by
  decide

/-- C4, at the failing input.  A new resource accepts the Binary stream `\0BIN`
followed by `7`; `BeginLoad` on the stream `{` (detected as Json, the parse
fails) then returns false and `loadFormat_` is still Binary, not `Unknown`. -/
theorem BeginLoad_parse_failure_keeps_format :
    (BeginLoad Sample.env (SceneResource.new Sample.env false) [0, 66, 73, 78, 7]).1 = true ∧
    (BeginLoad Sample.env
      (BeginLoad Sample.env (SceneResource.new Sample.env false) [0, 66, 73, 78, 7]).2
      [123]).1 = false ∧
    (BeginLoad Sample.env
      (BeginLoad Sample.env (SceneResource.new Sample.env false) [0, 66, 73, 78, 7]).2
      [123]).2.loadFormat_ = some InternalResourceFormat.Binary := by
  decide

/-! ## EndLoad -/

/-- `EndLoad` without a recorded known format. -/
theorem EndLoad_no_format (env : Collaborators Scene JSONFile XMLFile Prefab)
    (onReloadBegin : SceneResource Scene JSONFile XMLFile → Bool)
    (self : SceneResource Scene JSONFile XMLFile)
    (h : self.loadFormat_ = none ∨ self.loadFormat_ = some InternalResourceFormat.Unknown) :
    EndLoad env onReloadBegin self = .returned false self [] := by
  unfold EndLoad
  rcases h with h | h <;> simp [h]

/-- `EndLoad` with a recorded known format when the subscribers cancel. -/
theorem EndLoad_cancelled (env : Collaborators Scene JSONFile XMLFile Prefab)
    (onReloadBegin : SceneResource Scene JSONFile XMLFile → Bool)
    (self : SceneResource Scene JSONFile XMLFile) (format : InternalResourceFormat)
    (hf : self.loadFormat_ = some format) (hk : format ≠ InternalResourceFormat.Unknown)
    (hc : onReloadBegin self = true) :
    EndLoad env onReloadBegin self =
      .returned true (released self)
        [Notification.OnReloadBegin, Notification.OnReloadEnd false] := by
  unfold EndLoad
  simp [hf, hk, hc, released]

/-- `EndLoad` with a recorded known format when the subscribers do not cancel:
the result follows the result of the `switch`. -/
theorem EndLoad_applied (env : Collaborators Scene JSONFile XMLFile Prefab)
    (onReloadBegin : SceneResource Scene JSONFile XMLFile → Bool)
    (self : SceneResource Scene JSONFile XMLFile) (format : InternalResourceFormat)
    (hf : self.loadFormat_ = some format) (hk : format ≠ InternalResourceFormat.Unknown)
    (hc : onReloadBegin self = false) :
    EndLoad env onReloadBegin self =
      match applyStep env self format with
      | .nullPointer => .nullPointer
      | .archiveException scene _ =>
        .returned false { self with scene_ := scene } [Notification.OnReloadBegin]
      | .completed scene =>
        .returned true (released { self with scene_ := scene })
          [Notification.OnReloadBegin, Notification.OnReloadEnd true] := by
  unfold EndLoad
  simp only [hf, hk, hc, released]
  cases applyStep env self format <;> simp

/-- C5, at the failing input.  A new resource accepts the Json stream `{`, `5`
(a document without the block `resource`); `EndLoad`, not cancelled, returns
false because the input archive raises `ArchiveException`, and the pending Json
document is still held afterwards. -/
theorem EndLoad_error_keeps_document :
    (BeginLoad Sample.env (SceneResource.new Sample.env false) [123, 5]).1 = true ∧
    EndLoad Sample.env Sample.proceed
        (BeginLoad Sample.env (SceneResource.new Sample.env false) [123, 5]).2 =
      .returned false
        { scene_ := 0
          loadFormat_ := some InternalResourceFormat.Json
          saveFormat_ := none
          isPrefab_ := false
          loadBinaryFile_ := none
          loadJsonFile_ := some ("", 5)
          loadXmlFile_ := none }
        [Notification.OnReloadBegin] := by
  decide

/-- C6.  Cancellation.  With a known format recorded: when the subscribers of
`OnReloadBegin` set `cancelReload`, `EndLoad` returns true, the resource
afterwards is the one before with the three pending pointers reset (so
`scene_` is as before, and nothing of the result depends on the archives or on
the legacy loader), and the signals emitted are `OnReloadBegin` and then
`OnReloadEnd(false)`, once; when they do not set it and the `switch` completes
with scene `scene`, `EndLoad` returns true and emits `OnReloadEnd(true)`. -/
theorem EndLoad_cancellation (env : Collaborators Scene JSONFile XMLFile Prefab)
    (onReloadBegin : SceneResource Scene JSONFile XMLFile → Bool)
    (self : SceneResource Scene JSONFile XMLFile) (format : InternalResourceFormat)
    (hf : self.loadFormat_ = some format) (hk : format ≠ InternalResourceFormat.Unknown) :
    (onReloadBegin self = true →
      EndLoad env onReloadBegin self =
          .returned true (released self)
            [Notification.OnReloadBegin, Notification.OnReloadEnd false] ∧
        (released self).scene_ = self.scene_ ∧ pendingCount (released self) = 0 ∧
        ∀ (Prefab2 : Type) (other : Collaborators Scene JSONFile XMLFile Prefab2),
          EndLoad other onReloadBegin self = EndLoad env onReloadBegin self) ∧
    (onReloadBegin self = false → ∀ scene, applyStep env self format = .completed scene →
      EndLoad env onReloadBegin self =
        .returned true (released { self with scene_ := scene })
          [Notification.OnReloadBegin, Notification.OnReloadEnd true]) := by
  refine ⟨fun hc => ⟨EndLoad_cancelled env onReloadBegin self format hf hk hc, rfl, rfl, ?_⟩,
    fun hc scene ha => ?_⟩
  · intro Prefab2 other
    rw [EndLoad_cancelled env onReloadBegin self format hf hk hc,
      EndLoad_cancelled other onReloadBegin self format hf hk hc]
  · rw [EndLoad_applied env onReloadBegin self format hf hk hc, ha]

/-- C6, at the sample collaborators: the Json stream `{`, `5` is pending and
the subscribers cancel. -/
theorem EndLoad_cancellation_witness :
    EndLoad Sample.env Sample.cancel
        (BeginLoad Sample.env (SceneResource.new Sample.env false) [123, 5]).2 =
      .returned true
        (released (BeginLoad Sample.env (SceneResource.new Sample.env false) [123, 5]).2)
        [Notification.OnReloadBegin, Notification.OnReloadEnd false] :=
  ((EndLoad_cancellation Sample.env Sample.cancel
    (BeginLoad Sample.env (SceneResource.new Sample.env false) [123, 5]).2
    InternalResourceFormat.Json rfl (by decide)).1 rfl).1

/-- C9, as the claim states it, fails.  The Xml stream `<`, `5`, `other` parses
to a document whose root element is `other`, not `resource`; `EndLoad`, not
cancelled, hands it to the legacy loader, which reports failure, and `EndLoad`
returns false. -/
theorem EndLoad_legacy_loader_can_fail :
    (BeginLoad Sample.env (SceneResource.new Sample.env false)
      [60, 5, 111, 116, 104, 101, 114]).1 = true ∧
    (BeginLoad Sample.env (SceneResource.new Sample.env false)
      [60, 5, 111, 116, 104, 101, 114]).2.loadXmlFile_ = some ("other", 5) ∧
    Sample.env.xmlRootName ("other", 5) ≠ GetXmlRootName ∧
    EndLoad Sample.env Sample.proceed
        (BeginLoad Sample.env (SceneResource.new Sample.env false)
          [60, 5, 111, 116, 104, 101, 114]).2 =
      .returned false
        (BeginLoad Sample.env (SceneResource.new Sample.env false)
          [60, 5, 111, 116, 104, 101, 114]).2
        [Notification.OnReloadBegin] := by
  decide

/-- C9, amended.  In a non-cancelled `EndLoad` with recorded format `Xml` and
pending document `xmlFile`: if the name of the root element differs from
`resource`, the result is that of the legacy loader `Scene::LoadXML` on the
root element and of nothing else: `EndLoad` returns true exactly when the
legacy loader reports success, and `scene_` is the scene the legacy loader
leaves; if the name is `resource`, the result is that of the XML input archive
under the block `resource`, whatever the legacy loader would do.  With recorded
format `Json` or `Binary` the result does not depend on the legacy loader. -/
theorem EndLoad_xml_paths (env : Collaborators Scene JSONFile XMLFile Prefab)
    (onReloadBegin : SceneResource Scene JSONFile XMLFile → Bool)
    (self : SceneResource Scene JSONFile XMLFile) :
    (∀ xmlFile, self.loadFormat_ = some InternalResourceFormat.Xml →
      onReloadBegin self = false → self.loadXmlFile_ = some xmlFile →
      (env.xmlRootName xmlFile ≠ GetXmlRootName →
        (EndLoad env onReloadBegin self =
          if (env.LoadXML self.scene_ xmlFile).2 = true then
            .returned true (released { self with scene_ := (env.LoadXML self.scene_ xmlFile).1 })
              [Notification.OnReloadBegin, Notification.OnReloadEnd true]
          else
            .returned false { self with scene_ := (env.LoadXML self.scene_ xmlFile).1 }
              [Notification.OnReloadBegin]) ∧
        ∀ archive, EndLoad { env with xmlInput := archive } onReloadBegin self =
          EndLoad env onReloadBegin self) ∧
      (env.xmlRootName xmlFile = GetXmlRootName →
        (EndLoad env onReloadBegin self =
          match env.xmlInput xmlFile GetXmlRootName self.scene_ false PrefabSaveFlag.None
              PrefabLoadFlag.None with
          | .done scene =>
            .returned true (released { self with scene_ := scene })
              [Notification.OnReloadBegin, Notification.OnReloadEnd true]
          | .thrown scene _ =>
            .returned false { self with scene_ := scene } [Notification.OnReloadBegin]) ∧
        ∀ legacy, EndLoad { env with LoadXML := legacy } onReloadBegin self =
          EndLoad env onReloadBegin self)) ∧
    (self.loadFormat_ = some InternalResourceFormat.Json ∨
        self.loadFormat_ = some InternalResourceFormat.Binary →
      ∀ legacy, EndLoad { env with LoadXML := legacy } onReloadBegin self =
        EndLoad env onReloadBegin self) := by
  refine ⟨fun xmlFile hf hc hdoc => ⟨fun hname => ⟨?_, fun archive => ?_⟩,
    fun hname => ⟨?_, fun legacy => ?_⟩⟩, fun hf legacy => ?_⟩
  · rw [EndLoad_applied env onReloadBegin self _ hf (by decide) hc]
    cases hl : (env.LoadXML self.scene_ xmlFile).2 <;> simp [applyStep, hdoc, hname, hl]
  · rw [EndLoad_applied env onReloadBegin self _ hf (by decide) hc,
      EndLoad_applied _ onReloadBegin self _ hf (by decide) hc]
    simp [applyStep, hdoc, hname]
  · rw [EndLoad_applied env onReloadBegin self _ hf (by decide) hc]
    cases hl : env.xmlInput xmlFile GetXmlRootName self.scene_ false PrefabSaveFlag.None
      PrefabLoadFlag.None <;> simp [applyStep, hdoc, hname, hl, Applied.ofOutcome]
  · rw [EndLoad_applied env onReloadBegin self _ hf (by decide) hc,
      EndLoad_applied _ onReloadBegin self _ hf (by decide) hc]
    simp [applyStep, hdoc, hname]
  · cases hc : onReloadBegin self
    · rcases hf with hf | hf
      · rw [EndLoad_applied env onReloadBegin self _ hf (by decide) hc,
          EndLoad_applied _ onReloadBegin self _ hf (by decide) hc]
        simp [applyStep]
      · rw [EndLoad_applied env onReloadBegin self _ hf (by decide) hc,
          EndLoad_applied _ onReloadBegin self _ hf (by decide) hc]
        simp [applyStep]
    · rcases hf with hf | hf
      · rw [EndLoad_cancelled env onReloadBegin self _ hf (by decide) hc,
          EndLoad_cancelled _ onReloadBegin self _ hf (by decide) hc]
      · rw [EndLoad_cancelled env onReloadBegin self _ hf (by decide) hc,
          EndLoad_cancelled _ onReloadBegin self _ hf (by decide) hc]

/-- C9 amended, at the sample collaborators: the Xml stream `<`, `9`, `scene`
has the root element `scene`, which the sample legacy loader accepts. -/
theorem EndLoad_xml_paths_witness :
    Sample.env.xmlRootName ("scene", 9) ≠ GetXmlRootName ∧
    EndLoad Sample.env Sample.proceed
        (BeginLoad Sample.env (SceneResource.new Sample.env false)
          [60, 9, 115, 99, 101, 110, 101]).2 =
      .returned true
        { scene_ := 9
          loadFormat_ := some InternalResourceFormat.Xml
          saveFormat_ := none
          isPrefab_ := false
          loadBinaryFile_ := none
          loadJsonFile_ := none
          loadXmlFile_ := none }
        [Notification.OnReloadBegin, Notification.OnReloadEnd true] :=
  ⟨by decide,
    (((EndLoad_xml_paths Sample.env Sample.proceed
      (BeginLoad Sample.env (SceneResource.new Sample.env false)
        [60, 9, 115, 99, 101, 110, 101]).2).1 ("scene", 9) (by decide) rfl (by decide)).1
      (by decide)).1.trans (by decide)⟩

/-- The two return values of `EndLoad`.  It returns false exactly when no known
format is recorded (`loadFormat_` empty or `Unknown`) or the subscribers do not
cancel and the `switch` raises `ArchiveException`; it returns true exactly when
a known format is recorded and either the subscribers cancel or the `switch`
completes.  Without a known format it returns false at once: the resource is
untouched and no signal is emitted.  A Binary payload that the input archive
rejects after the magic, and a legacy loader that reports failure, are such
`ArchiveException`s, and `EndLoad` then returns false.  An `ArchiveException`
never leaves `EndLoad`: each one raised by the `switch` ends in `returned
false`. -/
theorem EndLoad_result (env : Collaborators Scene JSONFile XMLFile Prefab)
    (onReloadBegin : SceneResource Scene JSONFile XMLFile → Bool)
    (self : SceneResource Scene JSONFile XMLFile) :
    ((∃ after emitted, EndLoad env onReloadBegin self = .returned false after emitted) ↔
      (self.loadFormat_ = none ∨ self.loadFormat_ = some InternalResourceFormat.Unknown) ∨
      ∃ format scene what, self.loadFormat_ = some format ∧ onReloadBegin self = false ∧
        applyStep env self format = .archiveException scene what) ∧
    ((∃ after emitted, EndLoad env onReloadBegin self = .returned true after emitted) ↔
      ∃ format, self.loadFormat_ = some format ∧ format ≠ InternalResourceFormat.Unknown ∧
        (onReloadBegin self = true ∨ ∃ scene, applyStep env self format = .completed scene)) ∧
    (self.loadFormat_ = none ∨ self.loadFormat_ = some InternalResourceFormat.Unknown →
      EndLoad env onReloadBegin self = .returned false self []) ∧
    (∀ format scene what, self.loadFormat_ = some format → onReloadBegin self = false →
      applyStep env self format = .archiveException scene what →
      ∃ emitted, EndLoad env onReloadBegin self =
        .returned false { self with scene_ := scene } emitted) ∧
    (∀ data scene what, self.loadBinaryFile_ = some data →
      env.binaryInput (data.drop env.BinaryMagicSize) GetXmlRootName self.scene_ false
        PrefabSaveFlag.None PrefabLoadFlag.None = .thrown scene what →
      applyStep env self InternalResourceFormat.Binary = .archiveException scene what) ∧
    (∀ xmlFile, self.loadXmlFile_ = some xmlFile → env.xmlRootName xmlFile ≠ GetXmlRootName →
      (env.LoadXML self.scene_ xmlFile).2 = false →
      applyStep env self InternalResourceFormat.Xml =
        .archiveException (env.LoadXML self.scene_ xmlFile).1
          "Cannot load Scene from legacy XML format") := by
  have key : ∀ format scene what, self.loadFormat_ = some format → onReloadBegin self = false →
      applyStep env self format = .archiveException scene what →
      ∃ emitted, EndLoad env onReloadBegin self =
        .returned false { self with scene_ := scene } emitted := by
    intro format scene what hf hc ha
    by_cases hk : format = InternalResourceFormat.Unknown
    · subst hk
      simp only [applyStep, Applied.archiveException.injEq] at ha
      obtain ⟨rfl, -⟩ := ha
      exact ⟨[], EndLoad_no_format env onReloadBegin self (Or.inr hf)⟩
    · exact ⟨_, by rw [EndLoad_applied env onReloadBegin self format hf hk hc, ha]⟩
  refine ⟨⟨?_, ?_⟩, ⟨?_, ?_⟩, EndLoad_no_format env onReloadBegin self, key, ?_, ?_⟩
  · rintro ⟨after, emitted, h⟩
    cases hf : self.loadFormat_ with
    | none => exact Or.inl (Or.inl rfl)
    | some format =>
      by_cases hk : format = InternalResourceFormat.Unknown
      · exact Or.inl (Or.inr (by rw [hk]))
      · right
        cases hc : onReloadBegin self
        · rw [EndLoad_applied env onReloadBegin self format hf hk hc] at h
          cases ha : applyStep env self format with
          | completed scene => simp [ha] at h
          | archiveException scene what => exact ⟨format, scene, what, rfl, rfl, ha⟩
          | nullPointer => simp [ha] at h
        · rw [EndLoad_cancelled env onReloadBegin self format hf hk hc] at h
          simp at h
  · rintro (h | ⟨format, scene, what, hf, hc, ha⟩)
    · exact ⟨_, _, EndLoad_no_format env onReloadBegin self h⟩
    · obtain ⟨emitted, h⟩ := key format scene what hf hc ha
      exact ⟨_, _, h⟩
  · rintro ⟨after, emitted, h⟩
    cases hf : self.loadFormat_ with
    | none => rw [EndLoad_no_format env onReloadBegin self (Or.inl hf)] at h; simp at h
    | some format =>
      by_cases hk : format = InternalResourceFormat.Unknown
      · rw [EndLoad_no_format env onReloadBegin self (Or.inr (by rw [hf, hk]))] at h
        simp at h
      · refine ⟨format, rfl, hk, ?_⟩
        cases hc : onReloadBegin self
        · right
          rw [EndLoad_applied env onReloadBegin self format hf hk hc] at h
          cases ha : applyStep env self format with
          | completed scene => exact ⟨scene, rfl⟩
          | archiveException scene what => simp [ha] at h
          | nullPointer => simp [ha] at h
        · exact Or.inl rfl
  · rintro ⟨format, hf, hk, hc | ⟨scene, ha⟩⟩
    · exact ⟨_, _, EndLoad_cancelled env onReloadBegin self format hf hk hc⟩
    · cases hc : onReloadBegin self
      · exact ⟨_, _, by rw [EndLoad_applied env onReloadBegin self format hf hk hc, ha]⟩
      · exact ⟨_, _, EndLoad_cancelled env onReloadBegin self format hf hk hc⟩
  · intro data scene what hdata hthrown
    simp [applyStep, hdata, hthrown, Applied.ofOutcome]
  · intro xmlFile hdoc hname hfail
    simp [applyStep, hdoc, hname, hfail]

/-- The return value false at the sample collaborators: the Binary stream
`\0BIN` with nothing after the magic is accepted by `BeginLoad`, the input
archive rejects the empty payload, and `EndLoad` returns false. -/
theorem EndLoad_result_witness :
    ∃ emitted,
      EndLoad Sample.env Sample.proceed
          (BeginLoad Sample.env (SceneResource.new Sample.env false) [0, 66, 73, 78]).2 =
        .returned false
          { (BeginLoad Sample.env (SceneResource.new Sample.env false) [0, 66, 73, 78]).2 with
            scene_ := 0 }
          emitted :=
  (EndLoad_result Sample.env Sample.proceed
    (BeginLoad Sample.env (SceneResource.new Sample.env false) [0, 66, 73, 78]).2).2.2.2.1
    InternalResourceFormat.Binary 0 "unexpected end of buffer" (by decide) rfl (by decide)

/-- C10, at the failing input.  From a new resource a Json stream is accepted
and applied, which resets the pending pointers and keeps `loadFormat_ = Json`.
In the next `EndLoad` a known format is recorded, the subscribers do not cancel
and the `switch` raises no `ArchiveException`; yet `EndLoad` returns neither
true nor false: it reads the null `loadJsonFile_`. -/
theorem EndLoad_second_call_returns_nothing :
    EndLoad Sample.env Sample.proceed
        (BeginLoad Sample.env (SceneResource.new Sample.env false)
          [123, 5, 114, 101, 115, 111, 117, 114, 99, 101]).2 =
      .returned true
        { scene_ := 5
          loadFormat_ := some InternalResourceFormat.Json
          saveFormat_ := none
          isPrefab_ := false
          loadBinaryFile_ := none
          loadJsonFile_ := none
          loadXmlFile_ := none }
        [Notification.OnReloadBegin, Notification.OnReloadEnd true] ∧
    applyStep Sample.env
        ({ scene_ := 5
           loadFormat_ := some InternalResourceFormat.Json
           saveFormat_ := none
           isPrefab_ := false
           loadBinaryFile_ := none
           loadJsonFile_ := none
           loadXmlFile_ := none } : SceneResource Nat (String × Nat) (String × Nat))
        InternalResourceFormat.Json = .nullPointer ∧
    ∀ ok after emitted,
      EndLoad Sample.env Sample.proceed
          { scene_ := 5
            loadFormat_ := some InternalResourceFormat.Json
            saveFormat_ := none
            isPrefab_ := false
            loadBinaryFile_ := none
            loadJsonFile_ := none
            loadXmlFile_ := none } ≠ .returned ok after emitted := by
  refine ⟨by decide, by decide, fun ok after emitted h => ?_⟩
  have hnull : EndLoad Sample.env Sample.proceed
      { scene_ := 5
        loadFormat_ := some InternalResourceFormat.Json
        saveFormat_ := none
        isPrefab_ := false
        loadBinaryFile_ := none
        loadJsonFile_ := none
        loadXmlFile_ := none } = .nullPointer := by decide
  rw [hnull] at h
  cases h

/-! ## Pending documents -/

/-- After `BeginLoad` only the pointer of the detected format can be set, and
it holds the document made from the source of this call. -/
theorem BeginLoad_slots (env : Collaborators Scene JSONFile XMLFile Prefab)
    (self : SceneResource Scene JSONFile XMLFile) (source : Bytes) :
    match env.PeekResourceFormat source env.DefaultBinaryMagic with
    | .Json =>
      (BeginLoad env self source).2.loadJsonFile_ = some (env.jsonLoad source).1 ∧
        (BeginLoad env self source).2.loadBinaryFile_ = none ∧
        (BeginLoad env self source).2.loadXmlFile_ = none
    | .Xml =>
      (BeginLoad env self source).2.loadXmlFile_ = some (env.xmlLoad source).1 ∧
        (BeginLoad env self source).2.loadBinaryFile_ = none ∧
        (BeginLoad env self source).2.loadJsonFile_ = none
    | .Binary =>
      (BeginLoad env self source).2.loadBinaryFile_ = some (env.binaryLoad source).1 ∧
        (BeginLoad env self source).2.loadJsonFile_ = none ∧
        (BeginLoad env self source).2.loadXmlFile_ = none
    | .Unknown =>
      (BeginLoad env self source).2.loadBinaryFile_ = none ∧
        (BeginLoad env self source).2.loadJsonFile_ = none ∧
        (BeginLoad env self source).2.loadXmlFile_ = none := by
  unfold BeginLoad
  cases env.PeekResourceFormat source env.DefaultBinaryMagic <;> simp <;> split <;> simp

/-- After `BeginLoad` at most one pending pointer is set. -/
theorem BeginLoad_pendingCount (env : Collaborators Scene JSONFile XMLFile Prefab)
    (self : SceneResource Scene JSONFile XMLFile) (source : Bytes) :
    pendingCount (BeginLoad env self source).2 ≤ 1 := by
  have h := BeginLoad_slots env self source
  unfold pendingCount
  cases hf : env.PeekResourceFormat source env.DefaultBinaryMagic <;> rw [hf] at h <;>
    obtain ⟨h1, h2, h3⟩ := h <;> simp [h1, h2, h3]

/-- A call that returns does not raise the number of set pending pointers
above one. -/
theorem step_pendingCount (env : Collaborators Scene JSONFile XMLFile Prefab)
    (self after : SceneResource Scene JSONFile XMLFile) (call : Call Scene JSONFile XMLFile)
    (hself : pendingCount self ≤ 1) (h : step env self call = some after) :
    pendingCount after ≤ 1 := by
  cases call with
  | BeginLoad source =>
    simp only [step, Option.some.injEq] at h
    subst h
    exact BeginLoad_pendingCount env self source
  | EndLoad onReloadBegin =>
    simp only [step] at h
    cases hlf : self.loadFormat_ with
    | none =>
      rw [EndLoad_no_format env onReloadBegin self (Or.inl hlf)] at h
      simp only [Option.some.injEq] at h
      subst h
      exact hself
    | some format =>
      by_cases hk : format = InternalResourceFormat.Unknown
      · rw [EndLoad_no_format env onReloadBegin self (Or.inr (by rw [hlf, hk]))] at h
        simp only [Option.some.injEq] at h
        subst h
        exact hself
      · cases hc : onReloadBegin self
        · rw [EndLoad_applied env onReloadBegin self format hlf hk hc] at h
          cases ha : applyStep env self format with
          | completed scene =>
            simp only [ha, Option.some.injEq] at h
            subst h
            simp [pendingCount, released]
          | archiveException scene what =>
            simp only [ha, Option.some.injEq] at h
            subst h
            exact hself
          | nullPointer => simp [ha] at h
        · rw [EndLoad_cancelled env onReloadBegin self format hlf hk hc] at h
          simp only [Option.some.injEq] at h
          subst h
          simp [pendingCount, released]
  | Save dest format asPrefab =>
    simp only [step, Option.some.injEq] at h
    subst h
    exact hself
  | SaveDefault dest =>
    simp only [step, Option.some.injEq] at h
    subst h
    exact hself
  | SetSaveFormatHint format =>
    simp only [step, Option.some.injEq] at h
    subst h
    exact hself

/-- A sequence of calls that returns keeps the number of set pending pointers
at most one. -/
theorem run_pendingCount (env : Collaborators Scene JSONFile XMLFile Prefab)
    (calls : List (Call Scene JSONFile XMLFile))
    (self after : SceneResource Scene JSONFile XMLFile)
    (hself : pendingCount self ≤ 1) (h : run env self calls = some after) :
    pendingCount after ≤ 1 := by
  induction calls generalizing self with
  | nil =>
    simp only [run, Option.some.injEq] at h
    subst h
    exact hself
  | cons call calls ih =>
    simp only [run] at h
    cases hs : step env self call with
    | none => simp [hs] at h
    | some mid =>
      rw [hs] at h
      exact ih mid (step_pendingCount env self mid call hself hs) h

/-- C7.  At most one pending document.  In the resource `after` reached from a
new resource by any sequence of `BeginLoad`, `EndLoad`, `Save` and
`SetSaveFormatHint` calls, at most one of the three pending pointers is set.
After two `BeginLoad` calls in succession on it, only the pointer of the format
detected for the second source can be set, and it holds the document made from
the second source. -/
theorem at_most_one_pending (env : Collaborators Scene JSONFile XMLFile Prefab)
    (isPrefab : Bool) (calls : List (Call Scene JSONFile XMLFile))
    (after : SceneResource Scene JSONFile XMLFile)
    (h : run env (SceneResource.new env isPrefab) calls = some after) :
    pendingCount after ≤ 1 ∧
    ∀ first second : Bytes,
      pendingCount (BeginLoad env (BeginLoad env after first).2 second).2 ≤ 1 ∧
      match env.PeekResourceFormat second env.DefaultBinaryMagic with
      | .Json =>
        (BeginLoad env (BeginLoad env after first).2 second).2.loadJsonFile_
            = some (env.jsonLoad second).1 ∧
          (BeginLoad env (BeginLoad env after first).2 second).2.loadBinaryFile_ = none ∧
          (BeginLoad env (BeginLoad env after first).2 second).2.loadXmlFile_ = none
      | .Xml =>
        (BeginLoad env (BeginLoad env after first).2 second).2.loadXmlFile_
            = some (env.xmlLoad second).1 ∧
          (BeginLoad env (BeginLoad env after first).2 second).2.loadBinaryFile_ = none ∧
          (BeginLoad env (BeginLoad env after first).2 second).2.loadJsonFile_ = none
      | .Binary =>
        (BeginLoad env (BeginLoad env after first).2 second).2.loadBinaryFile_
            = some (env.binaryLoad second).1 ∧
          (BeginLoad env (BeginLoad env after first).2 second).2.loadJsonFile_ = none ∧
          (BeginLoad env (BeginLoad env after first).2 second).2.loadXmlFile_ = none
      | .Unknown =>
        (BeginLoad env (BeginLoad env after first).2 second).2.loadBinaryFile_ = none ∧
          (BeginLoad env (BeginLoad env after first).2 second).2.loadJsonFile_ = none ∧
          (BeginLoad env (BeginLoad env after first).2 second).2.loadXmlFile_ = none :=
  ⟨run_pendingCount env calls _ after (by simp [pendingCount, SceneResource.new]) h,
    fun first second =>
      ⟨BeginLoad_pendingCount env _ second, BeginLoad_slots env (BeginLoad env after first).2 second⟩⟩

/-- C7, at the sample collaborators: a Json load that is applied, a hint, a
save, then an Xml stream whose `EndLoad` fails (the legacy loader rejects the
root `other`), which leaves the Xml document pending. -/
theorem at_most_one_pending_witness :
    pendingCount
      ({ scene_ := 5
         loadFormat_ := some InternalResourceFormat.Xml
         saveFormat_ := some InternalResourceFormat.Binary
         isPrefab_ := false
         loadBinaryFile_ := none
         loadJsonFile_ := none
         loadXmlFile_ := some ("other", 6) } : SceneResource Nat (String × Nat) (String × Nat))
      ≤ 1 :=
  (at_most_one_pending Sample.env false
    [Call.BeginLoad [123, 5, 114, 101, 115, 111, 117, 114, 99, 101], Call.EndLoad Sample.proceed,
      Call.SetSaveFormatHint InternalResourceFormat.Binary, Call.SaveDefault [],
      Call.BeginLoad [60, 6, 111, 116, 104, 101, 114], Call.EndLoad Sample.proceed]
    _ (by decide)).1

/-! ## Round trip -/

/-- C8.  Round trip.  For a format whose adapter reads back what it wrote
(`AdapterRoundTrip`) and whose saved streams the detector recognises
(`DetectsSaved`), with at least `BinaryMagicSize` bytes in `DefaultBinaryMagic`:
`Save(dest, format, false)` of a resource `saved` into an empty stream returns
true; `BeginLoad` of any resource on the written bytes returns true; and
`EndLoad`, not cancelled, returns true, emits `OnReloadEnd(true)` and leaves
`scene_` equal to the scene of `saved`. -/
theorem Save_Load_round_trip (env : Collaborators Scene JSONFile XMLFile Prefab)
    (format : InternalResourceFormat) (hrt : AdapterRoundTrip env format)
    (hdet : DetectsSaved env format)
    (hmagic : env.BinaryMagicSize ≤ env.DefaultBinaryMagic.length)
    (saved loading : SceneResource Scene JSONFile XMLFile)
    (onReloadBegin : SceneResource Scene JSONFile XMLFile → Bool)
    (hgo : ∀ resource, onReloadBegin resource = false) :
    ∃ written, Save env saved [] format false = .returned true written ∧
      (BeginLoad env loading written).1 = true ∧
      ∃ after, EndLoad env onReloadBegin (BeginLoad env loading written).2 =
          .returned true after [Notification.OnReloadBegin, Notification.OnReloadEnd true] ∧
        after.scene_ = saved.scene_ := by
  cases format with
  | Unknown => exact absurd hrt (by simp [AdapterRoundTrip])
  | Json =>
    obtain ⟨jsonFile, hout, hsave, hload, hin⟩ :=
      hrt saved.scene_ PrefabSaveFlag.EnumsAsStrings PrefabLoadFlag.None
    have hS : Save env saved [] InternalResourceFormat.Json false =
        .returned true (env.jsonSave jsonFile []).2 := by
      simp [Save, hout, hsave]
    have hpeek := hdet saved _ hS
    have hB : BeginLoad env loading (env.jsonSave jsonFile []).2 =
        (true, { loading with
          loadBinaryFile_ := none, loadXmlFile_ := none,
          loadJsonFile_ := some (env.jsonLoad (env.jsonSave jsonFile []).2).1,
          loadFormat_ := some InternalResourceFormat.Json }) := by
      simp [BeginLoad, hpeek, hload]
    refine ⟨_, hS, by rw [hB], ?_⟩
    rw [hB]
    rw [EndLoad_applied env onReloadBegin _ InternalResourceFormat.Json rfl (by decide) (hgo _)]
    simp [applyStep, hin, Applied.ofOutcome, released]
  | Xml =>
    obtain ⟨xmlFile, hout, hsave, hload, hroot, hin⟩ :=
      hrt saved.scene_ PrefabSaveFlag.EnumsAsStrings PrefabLoadFlag.None
    have hS : Save env saved [] InternalResourceFormat.Xml false =
        .returned true (env.xmlSave xmlFile []).2 := by
      simp [Save, hout, hsave]
    have hpeek := hdet saved _ hS
    have hB : BeginLoad env loading (env.xmlSave xmlFile []).2 =
        (true, { loading with
          loadBinaryFile_ := none, loadJsonFile_ := none,
          loadXmlFile_ := some (env.xmlLoad (env.xmlSave xmlFile []).2).1,
          loadFormat_ := some InternalResourceFormat.Xml }) := by
      simp [BeginLoad, hpeek, hload]
    refine ⟨_, hS, by rw [hB], ?_⟩
    rw [hB]
    rw [EndLoad_applied env onReloadBegin _ InternalResourceFormat.Xml rfl (by decide) (hgo _)]
    simp [applyStep, hin, hroot, Applied.ofOutcome, released]
  | Binary =>
    obtain ⟨hfile, hrt⟩ := hrt
    obtain ⟨payload, hout, hin⟩ :=
      hrt saved.scene_ PrefabSaveFlag.CompactAttributeNames PrefabLoadFlag.None
    have hS : Save env saved [] InternalResourceFormat.Binary false =
        .returned true (env.DefaultBinaryMagic.take env.BinaryMagicSize ++ payload) := by
      simp [Save, hout]
    have hpeek := hdet saved _ hS
    have hB : BeginLoad env loading
          (env.DefaultBinaryMagic.take env.BinaryMagicSize ++ payload) =
        (true, { loading with
          loadJsonFile_ := none, loadXmlFile_ := none,
          loadBinaryFile_ := some (env.DefaultBinaryMagic.take env.BinaryMagicSize ++ payload),
          loadFormat_ := some InternalResourceFormat.Binary }) := by
      simp [BeginLoad, hpeek, hfile]
    have hdrop : (env.DefaultBinaryMagic.take env.BinaryMagicSize ++ payload).drop
        env.BinaryMagicSize = payload := by
      have hlen : (env.DefaultBinaryMagic.take env.BinaryMagicSize).length
          = env.BinaryMagicSize := by
        simp [List.length_take, hmagic]
      exact List.drop_left' hlen
    refine ⟨_, hS, by rw [hB], ?_⟩
    rw [hB]
    rw [EndLoad_applied env onReloadBegin _ InternalResourceFormat.Binary rfl (by decide) (hgo _)]
    simp [applyStep, hdrop, hin, Applied.ofOutcome, released]

/-- The sample name decoder inverts the sample name encoder. -/
theorem Sample.decodeName_encodeName (name : String) :
    Sample.decodeName (Sample.encodeName name) = name := by
  simp [Sample.decodeName, Sample.encodeName, List.map_map, Function.comp_def]

/-- The sample collaborators read back what they wrote, in each known format. -/
theorem Sample.adapters (format : InternalResourceFormat)
    (h : format ≠ InternalResourceFormat.Unknown) : AdapterRoundTrip Sample.env format := by
  cases format with
  | Unknown => exact absurd rfl h
  | Json =>
    intro scene sf lf
    refine ⟨(GetXmlRootName, scene), rfl, rfl, ?_, ?_⟩
    · simp [Sample.env, Sample.parseText]
    · intro old sf2 lf2
      simp [Sample.env, Sample.parseText, Sample.readText, Sample.decodeName_encodeName]
  | Xml =>
    intro scene sf lf
    refine ⟨(GetXmlRootName, scene), rfl, rfl, ?_, ?_, ?_⟩
    · simp [Sample.env, Sample.parseText]
    · simp [Sample.env, Sample.parseText, Sample.decodeName_encodeName]
    · intro old sf2 lf2
      simp [Sample.env, Sample.parseText, Sample.readText, Sample.decodeName_encodeName]
  | Binary =>
    refine ⟨fun source => rfl, fun scene sf lf => ⟨scene :: Sample.encodeName GetXmlRootName,
      rfl, fun old sf2 lf2 => ?_⟩⟩
    simp [Sample.env, Sample.readBinary, Sample.decodeName_encodeName]

/-- The sample detector recognises what `Save` wrote, in each known format. -/
theorem Sample.detects (format : InternalResourceFormat) : DetectsSaved Sample.env format := by
  intro self written h
  cases format with
  | Unknown => simp [Save] at h
  | Json =>
    simp only [Save, Sample.env, Bool.false_eq_true, if_false, List.nil_append,
      SaveResult.returned.injEq, true_and] at h
    subst h
    simp [Sample.env, Sample.peek]
  | Xml =>
    simp only [Save, Sample.env, Bool.false_eq_true, if_false, List.nil_append,
      SaveResult.returned.injEq, true_and] at h
    subst h
    simp [Sample.env, Sample.peek]
  | Binary =>
    simp only [Save, Sample.env, Bool.false_eq_true, if_false, List.nil_append,
      SaveResult.returned.injEq, true_and] at h
    subst h
    simp [Sample.env, Sample.peek]

/-- C8, at the sample collaborators, for the three formats: the scene `7` of
`Sample.afterBinary` is saved and loaded into a new resource. -/
theorem Save_Load_round_trip_witness :
    (∃ written, Save Sample.env Sample.afterBinary [] InternalResourceFormat.Binary false =
        .returned true written ∧
      (BeginLoad Sample.env (SceneResource.new Sample.env false) written).1 = true ∧
      ∃ after, EndLoad Sample.env Sample.proceed
          (BeginLoad Sample.env (SceneResource.new Sample.env false) written).2 =
          .returned true after [Notification.OnReloadBegin, Notification.OnReloadEnd true] ∧
        after.scene_ = 7) ∧
    (∃ written, Save Sample.env Sample.afterBinary [] InternalResourceFormat.Json false =
        .returned true written ∧
      (BeginLoad Sample.env (SceneResource.new Sample.env false) written).1 = true ∧
      ∃ after, EndLoad Sample.env Sample.proceed
          (BeginLoad Sample.env (SceneResource.new Sample.env false) written).2 =
          .returned true after [Notification.OnReloadBegin, Notification.OnReloadEnd true] ∧
        after.scene_ = 7) ∧
    (∃ written, Save Sample.env Sample.afterBinary [] InternalResourceFormat.Xml false =
        .returned true written ∧
      (BeginLoad Sample.env (SceneResource.new Sample.env false) written).1 = true ∧
      ∃ after, EndLoad Sample.env Sample.proceed
          (BeginLoad Sample.env (SceneResource.new Sample.env false) written).2 =
          .returned true after [Notification.OnReloadBegin, Notification.OnReloadEnd true] ∧
        after.scene_ = 7) :=
  ⟨Save_Load_round_trip Sample.env InternalResourceFormat.Binary
      (Sample.adapters _ (by decide)) (Sample.detects _) (by decide) Sample.afterBinary
      (SceneResource.new Sample.env false) Sample.proceed (fun _ => rfl),
    Save_Load_round_trip Sample.env InternalResourceFormat.Json
      (Sample.adapters _ (by decide)) (Sample.detects _) (by decide) Sample.afterBinary
      (SceneResource.new Sample.env false) Sample.proceed (fun _ => rfl),
    Save_Load_round_trip Sample.env InternalResourceFormat.Xml
      (Sample.adapters _ (by decide)) (Sample.detects _) (by decide) Sample.afterBinary
      (SceneResource.new Sample.env false) Sample.proceed (fun _ => rfl)⟩

/-! ## Save -/

/-- C11, as the claim states it, fails.  With `asPrefab` set and a
`PrefabResource::Save` that raises `ArchiveException`, `Save` returns no flag:
the exception leaves it. -/
theorem Save_prefab_exception_escapes :
    Save Sample.prefabSaveRaises Sample.afterBinary [] InternalResourceFormat.Json true =
      .escaped "cannot save prefab" ∧
    ∀ ok out, Save Sample.prefabSaveRaises Sample.afterBinary [] InternalResourceFormat.Json
      true ≠ .returned ok out := by
  refine ⟨by decide, fun ok out => ?_⟩
  simp [Save, Sample.prefabSaveRaises, Sample.env]

/-- C11, amended.  For every format, `Save(dest, format, false)` returns a flag
and no `ArchiveException` leaves it; when the output archive of the format
raises `ArchiveException`, it returns false (for Json and Xml with `dest`
untouched, for Binary with the magic and the bytes written so far appended).
With `asPrefab` set, when `GeneratePrefab`, `NormalizeIds` and
`PrefabResource::Save` complete, `Save` returns the flag of
`PrefabResource::Save`. -/
theorem Save_error_boundary (env : Collaborators Scene JSONFile XMLFile Prefab)
    (self : SceneResource Scene JSONFile XMLFile) (dest : Bytes)
    (format : InternalResourceFormat) :
    (∃ ok out, Save env self dest format false = .returned ok out) ∧
    (∀ what, env.jsonOutput GetXmlRootName self.scene_ false PrefabSaveFlag.EnumsAsStrings
        PrefabLoadFlag.None = .error what →
      Save env self dest InternalResourceFormat.Json false = .returned false dest) ∧
    (∀ what, env.xmlOutput GetXmlRootName GetXmlRootName self.scene_ false
        PrefabSaveFlag.EnumsAsStrings PrefabLoadFlag.None = .error what →
      Save env self dest InternalResourceFormat.Xml false = .returned false dest) ∧
    (∀ written what, env.binaryOutput GetXmlRootName self.scene_ false
        PrefabSaveFlag.CompactAttributeNames PrefabLoadFlag.None = .thrown written what →
      Save env self dest InternalResourceFormat.Binary false =
        .returned false (dest ++ env.DefaultBinaryMagic.take env.BinaryMagicSize ++ written)) ∧
    (∀ prefab normalised ok out, env.GeneratePrefab self.scene_ = .ok prefab →
      env.NormalizeIds prefab = .ok normalised →
      env.prefabSave normalised dest format = .ok (ok, out) →
      Save env self dest format true = .returned ok out) := by
  refine ⟨?_, fun what h => ?_, fun what h => ?_, fun written what h => ?_,
    fun prefab normalised ok out h1 h2 h3 => ?_⟩
  · cases format with
    | Json =>
      cases h : env.jsonOutput GetXmlRootName self.scene_ false PrefabSaveFlag.EnumsAsStrings
        PrefabLoadFlag.None <;> simp [Save, h]
    | Xml =>
      cases h : env.xmlOutput GetXmlRootName GetXmlRootName self.scene_ false
        PrefabSaveFlag.EnumsAsStrings PrefabLoadFlag.None <;> simp [Save, h]
    | Binary =>
      cases h : env.binaryOutput GetXmlRootName self.scene_ false
        PrefabSaveFlag.CompactAttributeNames PrefabLoadFlag.None <;> simp [Save, h]
    | Unknown => simp [Save]
  · simp [Save, h]
  · simp [Save, h]
  · simp [Save, h]
  · simp [Save, h1, h2, h3]

/-- C11 amended, at the sample collaborators: a prefab save whose three steps
complete. -/
theorem Save_error_boundary_witness :
    Save Sample.env Sample.afterBinary [] InternalResourceFormat.Json true =
      .returned true [80, 7] :=
  (Save_error_boundary Sample.env Sample.afterBinary [] InternalResourceFormat.Json).2.2.2.2
    7 7 true [80, 7] rfl rfl rfl

/-- C12.  Binary layout.  With at least `BinaryMagicSize` bytes in
`DefaultBinaryMagic`: when `Save(dest, Binary, false)` returns true, the stream
afterwards is `dest`, then the first `BinaryMagicSize` bytes of the magic
(exactly that many), then the bytes `payload` that the output archive wrote, and
nothing else.  `EndLoad` with recorded format Binary hands the input archive the
pending data from offset `BinaryMagicSize` on; for pending data made of the
magic bytes and `payload`, these are exactly `payload`. -/
theorem Binary_layout (env : Collaborators Scene JSONFile XMLFile Prefab)
    (self : SceneResource Scene JSONFile XMLFile) (dest out : Bytes)
    (hmagic : env.BinaryMagicSize ≤ env.DefaultBinaryMagic.length)
    (h : Save env self dest InternalResourceFormat.Binary false = .returned true out) :
    ∃ payload,
      env.binaryOutput GetXmlRootName self.scene_ false PrefabSaveFlag.CompactAttributeNames
        PrefabLoadFlag.None = .done payload ∧
      out = dest ++ (env.DefaultBinaryMagic.take env.BinaryMagicSize ++ payload) ∧
      (env.DefaultBinaryMagic.take env.BinaryMagicSize).length = env.BinaryMagicSize ∧
      out.drop dest.length = env.DefaultBinaryMagic.take env.BinaryMagicSize ++ payload ∧
      (∀ (loading : SceneResource Scene JSONFile XMLFile) (data : Bytes),
        loading.loadBinaryFile_ = some data →
        applyStep env loading InternalResourceFormat.Binary =
          Applied.ofOutcome (env.binaryInput (data.drop env.BinaryMagicSize) GetXmlRootName
            loading.scene_ false PrefabSaveFlag.None PrefabLoadFlag.None)) ∧
      (∀ loading : SceneResource Scene JSONFile XMLFile,
        loading.loadBinaryFile_ =
          some (env.DefaultBinaryMagic.take env.BinaryMagicSize ++ payload) →
        applyStep env loading InternalResourceFormat.Binary =
          Applied.ofOutcome (env.binaryInput payload GetXmlRootName loading.scene_ false
            PrefabSaveFlag.None PrefabLoadFlag.None)) := by
  have hlen : (env.DefaultBinaryMagic.take env.BinaryMagicSize).length
      = env.BinaryMagicSize := by
    simp [List.length_take, hmagic]
  cases hout : env.binaryOutput GetXmlRootName self.scene_ false
      PrefabSaveFlag.CompactAttributeNames PrefabLoadFlag.None with
  | thrown written what => simp [Save, hout] at h
  | done payload =>
    simp only [Save, hout, Bool.false_eq_true, if_false, SaveResult.returned.injEq,
      true_and] at h
    subst h
    refine ⟨payload, rfl, by simp, hlen, by simp, fun loading data hdata => ?_,
      fun loading hdata => ?_⟩
    · simp [applyStep, hdata]
    · simp [applyStep, hdata, List.drop_left' hlen]

/-- C12, at the sample collaborators: the scene `7` saved as Binary after the
two bytes `1`, `2` already in the stream. -/
theorem Binary_layout_witness :
    ∃ payload,
      Sample.env.binaryOutput GetXmlRootName 7 false PrefabSaveFlag.CompactAttributeNames
        PrefabLoadFlag.None = .done payload ∧
      [1, 2, 0, 66, 73, 78, 7, 114, 101, 115, 111, 117, 114, 99, 101] =
        [1, 2] ++ ([0, 66, 73, 78] ++ payload) :=
  let ⟨payload, h1, h2, _⟩ := Binary_layout Sample.env Sample.afterBinary [1, 2]
    [1, 2, 0, 66, 73, 78, 7, 114, 101, 115, 111, 117, 114, 99, 101] (by decide) (by decide)
  ⟨payload, h1, h2⟩

/-- C14.  Per-format dispatch.  The root block name is `resource`.  Without
`asPrefab`, `Save` with `Json` runs the JSON output archive, and with `Xml` the
XML output archive over a root element `resource`, under the block `resource`
with the save flag `EnumsAsStrings`; with `Binary` it runs the binary output
archive under the block `resource` with the save flag `CompactAttributeNames`;
each with the load flag `None`.  The `switch` of `EndLoad` runs the input
archive of the recorded format under the block `resource` with the save flag
`None` and the load flag `None`. -/
theorem Save_dispatch (env : Collaborators Scene JSONFile XMLFile Prefab)
    (self : SceneResource Scene JSONFile XMLFile) (dest : Bytes) :
    GetXmlRootName = "resource" ∧
    (Save env self dest InternalResourceFormat.Json false =
      match env.jsonOutput "resource" self.scene_ false PrefabSaveFlag.EnumsAsStrings
          PrefabLoadFlag.None with
      | .error _ => .returned false dest
      | .ok jsonFile => .returned (env.jsonSave jsonFile dest).1 (env.jsonSave jsonFile dest).2) ∧
    (Save env self dest InternalResourceFormat.Xml false =
      match env.xmlOutput "resource" "resource" self.scene_ false PrefabSaveFlag.EnumsAsStrings
          PrefabLoadFlag.None with
      | .error _ => .returned false dest
      | .ok xmlFile => .returned (env.xmlSave xmlFile dest).1 (env.xmlSave xmlFile dest).2) ∧
    (Save env self dest InternalResourceFormat.Binary false =
      match env.binaryOutput "resource" self.scene_ false PrefabSaveFlag.CompactAttributeNames
          PrefabLoadFlag.None with
      | .thrown written _ =>
        .returned false (dest ++ env.DefaultBinaryMagic.take env.BinaryMagicSize ++ written)
      | .done written =>
        .returned true (dest ++ env.DefaultBinaryMagic.take env.BinaryMagicSize ++ written)) ∧
    (∀ jsonFile, self.loadJsonFile_ = some jsonFile →
      applyStep env self InternalResourceFormat.Json =
        Applied.ofOutcome (env.jsonInput jsonFile "resource" self.scene_ false
          PrefabSaveFlag.None PrefabLoadFlag.None)) ∧
    (∀ xmlFile, self.loadXmlFile_ = some xmlFile → env.xmlRootName xmlFile = "resource" →
      applyStep env self InternalResourceFormat.Xml =
        Applied.ofOutcome (env.xmlInput xmlFile "resource" self.scene_ false
          PrefabSaveFlag.None PrefabLoadFlag.None)) ∧
    (∀ data, self.loadBinaryFile_ = some data →
      applyStep env self InternalResourceFormat.Binary =
        Applied.ofOutcome (env.binaryInput (data.drop env.BinaryMagicSize) "resource"
          self.scene_ false PrefabSaveFlag.None PrefabLoadFlag.None)) := by
  refine ⟨rfl, ?_, ?_, ?_, fun jsonFile h => ?_, fun xmlFile h hname => ?_, fun data h => ?_⟩
  · simp only [Save, Bool.false_eq_true, if_false, GetXmlRootName]
  · simp only [Save, Bool.false_eq_true, if_false, GetXmlRootName]
  · simp only [Save, Bool.false_eq_true, if_false, GetXmlRootName]
  · simp [applyStep, h, GetXmlRootName]
  · simp [applyStep, h, hname, GetXmlRootName]
  · simp [applyStep, h, GetXmlRootName]

/-- C14, at the sample collaborators: the `switch` on the pending Json document
`resource`, `5`. -/
theorem Save_dispatch_witness :
    applyStep Sample.env
        (BeginLoad Sample.env (SceneResource.new Sample.env false)
          [123, 5, 114, 101, 115, 111, 117, 114, 99, 101]).2 InternalResourceFormat.Json =
      Applied.completed 5 :=
  ((Save_dispatch Sample.env
    (BeginLoad Sample.env (SceneResource.new Sample.env false)
      [123, 5, 114, 101, 115, 111, 117, 114, 99, 101]).2 []).2.2.2.2.1
    ("resource", 5) (by decide)).trans (by decide)

/-! ## Reachable states -/

/-- C15, at the failing inputs.  From a new resource: a Json stream is accepted
and applied, which resets the pending pointers and keeps `loadFormat_`; a second
`EndLoad`, not cancelled, passes the format check and reads the null
`loadJsonFile_`.  Likewise after a Binary stream is accepted and `BeginLoad` on
the stream `{` then fails: `loadFormat_` is still Binary, `loadBinaryFile_` is
null, and `EndLoad` reads it. -/
theorem EndLoad_reads_null_document :
    run Sample.env (SceneResource.new Sample.env false)
        [Call.BeginLoad [123, 5, 114, 101, 115, 111, 117, 114, 99, 101],
          Call.EndLoad Sample.proceed] =
      some
        { scene_ := 5
          loadFormat_ := some InternalResourceFormat.Json
          saveFormat_ := none
          isPrefab_ := false
          loadBinaryFile_ := none
          loadJsonFile_ := none
          loadXmlFile_ := none } ∧
    EndLoad Sample.env Sample.proceed
        { scene_ := 5
          loadFormat_ := some InternalResourceFormat.Json
          saveFormat_ := none
          isPrefab_ := false
          loadBinaryFile_ := none
          loadJsonFile_ := none
          loadXmlFile_ := none } = .nullPointer ∧
    run Sample.env (SceneResource.new Sample.env false)
        [Call.BeginLoad [123, 5, 114, 101, 115, 111, 117, 114, 99, 101],
          Call.EndLoad Sample.proceed, Call.EndLoad Sample.proceed] = none ∧
    run Sample.env (SceneResource.new Sample.env false)
        [Call.BeginLoad [0, 66, 73, 78, 7], Call.BeginLoad [123]] =
      some
        { scene_ := 0
          loadFormat_ := some InternalResourceFormat.Binary
          saveFormat_ := none
          isPrefab_ := false
          loadBinaryFile_ := none
          loadJsonFile_ := some ("", 0)
          loadXmlFile_ := none } ∧
    run Sample.env (SceneResource.new Sample.env false)
        [Call.BeginLoad [0, 66, 73, 78, 7], Call.BeginLoad [123],
          Call.EndLoad Sample.proceed] = none := by
  decide

/-- C16, at the failing input.  `BeginLoad` of a new resource on the stream of
the single byte `32`, which the detector does not recognise, returns false and
records `Unknown`; the default `Save` then resolves the format `Unknown` and
takes the `default` branch of the three-argument overload, which returns
false. -/
theorem default_format_can_be_Unknown :
    Sample.env.PeekResourceFormat [32] Sample.env.DefaultBinaryMagic
      = InternalResourceFormat.Unknown ∧
    (BeginLoad Sample.env (SceneResource.new Sample.env false) [32]).1 = false ∧
    resolvedFormat (BeginLoad Sample.env (SceneResource.new Sample.env false) [32]).2
      = InternalResourceFormat.Unknown ∧
    (BeginLoad Sample.env (SceneResource.new Sample.env false) [32]).2.isPrefab_ = false ∧
    SaveDefault Sample.env (BeginLoad Sample.env (SceneResource.new Sample.env false) [32]).2 []
      = .returned false [] ∧
    Save Sample.env (BeginLoad Sample.env (SceneResource.new Sample.env false) [32]).2 []
      InternalResourceFormat.Xml false ≠ .returned false [] := by
  decide

end Theorems

end Urho3D
